import Mathlib

/-!
# Verification of the pinger probing and telemetry engine

Shallow embedding of the pinger repository (src/): the TCP prober
(`tcp_pinger.rs`), the two HTTP probe backends (`hyper_pinger.rs`,
`reqwest_pinger.rs`), the per-target scheduler loop (`main.rs`), the metrics
aggregator (`metric.rs`) and the timing resolver decorator
(`timed_resolver.rs`).

Asynchronous effects are made explicit: each probe attempt receives an
environment record holding the results of its I/O steps (DNS lookup, socket
allocation, connect, TLS handshake, request send), and the timeout race is
modelled by an `Option` around that environment (`none` = the timer fired
first).  A Rust call that can panic is embedded with `RustOutcome`, whose
`panicked` constructor marks an aborted task.  DNS lookups performed by an
operation are returned as an explicit trace so that resolution-count claims
are statable.
-/

deriving instance DecidableEq for Except

/-- Result of running a Rust computation that may panic: either the value is
returned, or the thread/task aborts with a panic message. -/
inductive RustOutcome (α : Type) : Type
  | returned (a : α)
  | panicked (msg : String)
  deriving DecidableEq

/-- `std::time::Duration`, at microsecond granularity (the finest unit the
repository reads off a duration). -/
structure Duration where
  micros : Nat
  deriving DecidableEq

/-- `Duration::as_millis`. -/
def Duration.asMillis (d : Duration) : Nat := d.micros / 1000

/-- `Duration::as_micros`. -/
def Duration.asMicros (d : Duration) : Nat := d.micros

/-- `std::net::IpAddr`: a v4 or v6 address, carried as its numeric value. -/
inductive IpAddr : Type
  | v4 (addr : Nat)
  | v6 (addr : Nat)
  deriving DecidableEq

/-- `IpAddr::to_string` (the exact textual rendering is immaterial to the
claims; only injectivity on the sample inputs matters). -/
def IpAddr.display : IpAddr → String
  | .v4 n => "v4:" ++ toString n
  | .v6 n => "v6:" ++ toString n

/-- `std::net::SocketAddr`. -/
structure SocketAddr where
  ip : IpAddr
  port : Nat
  deriving DecidableEq

/-- `SocketAddr::set_port` (functional update). -/
def SocketAddr.setPort (a : SocketAddr) (p : Nat) : SocketAddr :=
  { a with port := p }

/-- `rustls::pki_types::ServerName`: an already-classified host, either a
literal IP address or a DNS name (the `try_from` classification step of
`tcp_pinger.rs` line 151). -/
inductive ServerName : Type
  | ipAddress (ip : IpAddr)
  | dnsName (name : String)
  deriving DecidableEq

/-- `ServerName::to_str`. -/
def ServerName.toStr : ServerName → String
  | .ipAddress ip => ip.display
  | .dnsName n => n

/-- A DNS lookup capability: `Resolver::lookup_ip`, yielding the ordered
address sequence or a resolution error rendered as text. -/
def LookupFn : Type := String → Except String (List IpAddr)

/-! ## TCP prober (`src/tcp_pinger.rs`) -/

/-- `TcpPingResponse` (tcp_pinger.rs lines 21-30). -/
inductive TcpPingResponse : Type
  | success (endpoint : SocketAddr) (resolveTime : Option Duration)
      (establishedTime : Duration)
  | failure (reason : String)
  | timeout
  deriving DecidableEq

/-- `TcpPingResult` (tcp_pinger.rs lines 12-19); `send_time` is the `Instant`
carried as an abstract tick count. -/
structure TcpPingResult where
  address : ServerName × Nat
  resolvedIp : IpAddr
  newlyResolved : Bool
  sendTime : Nat
  response : TcpPingResponse
  deriving DecidableEq

/-- `ResolvePolicy` (tcp_pinger.rs lines 32-36). -/
inductive ResolvePolicy : Type
  | always
  | resolved (ip : IpAddr)
  deriving DecidableEq

/-- `matches!(policy, ResolvePolicy::Always)`. -/
def ResolvePolicy.isAlways : ResolvePolicy → Bool
  | .always => true
  | .resolved _ => false

/-- `TcpPinger` (tcp_pinger.rs lines 38-44); the resolver handle is supplied
per call as part of the attempt environment. -/
structure TcpPinger where
  host : ServerName
  port : Nat
  timeout : Duration
  policy : ResolvePolicy
  deriving DecidableEq

/-- Environment of one TCP probe attempt: results of each fallible I/O step
and the elapsed-time readings taken during the attempt. -/
structure TcpEnv where
  lookup : LookupFn
  socketNewV4 : Except String Unit
  socketNewV6 : Except String Unit
  connect : SocketAddr → Except String Unit
  resolveElapsed : Duration
  establishedElapsed : Duration

/-- `TcpPinger::wrap_soft_err` (tcp_pinger.rs lines 102-110). -/
def TcpPinger.wrap_soft_err (p : TcpPinger) (e : String) (begin : Nat) :
    TcpPingResult :=
  { address := (p.host, p.port)
    resolvedIp := .v4 0
    newlyResolved := false
    sendTime := begin
    response := .failure e }

/-- `TcpPinger::wrap_timeout` (tcp_pinger.rs lines 112-120). -/
def TcpPinger.wrap_timeout (p : TcpPinger) (begin : Nat) : TcpPingResult :=
  { address := (p.host, p.port)
    resolvedIp := .v4 0
    newlyResolved := false
    sendTime := begin
    response := .timeout }

/-- `TcpPinger::resolve_addr` (tcp_pinger.rs lines 122-140): an IP-literal
host is returned as-is; a DNS name goes through `lookup_ip` and the first
address is taken, an empty answer being an error.  The second component is
the trace of DNS lookups performed. -/
def TcpPinger.resolve_addr (p : TcpPinger) (env : TcpEnv) :
    Except String IpAddr × List String :=
  match p.host with
  | .ipAddress ip => (.ok ip, [])
  | .dnsName name =>
    match env.lookup name with
    | .error e => (.error e, [name])
    | .ok [] => (.error ("No IP addresses found for host: " ++ name), [name])
    | .ok (ip :: _) => (.ok ip, [name])

/-- Steps of `TcpPinger::ping_inner` after the address is fixed
(tcp_pinger.rs lines 195-216): allocate a socket of the address family (the
`?` on `TcpSocket::new_v4/new_v6` propagates the error as a hard `Err`),
connect (a connect error is wrapped as a soft `Failure`), and on success
build the `Success` result. -/
def TcpPinger.afterResolve (p : TcpPinger) (env : TcpEnv) (begin : Nat)
    (resolvedIp : IpAddr) (resolveTime : Option Duration) :
    Except String TcpPingResult :=
  let socketAddr : SocketAddr := { ip := resolvedIp, port := p.port }
  let socketRes := match resolvedIp with
    | .v4 _ => env.socketNewV4
    | .v6 _ => env.socketNewV6
  match socketRes with
  | .error e => .error e
  | .ok _ =>
    match env.connect socketAddr with
    | .error e => .ok (p.wrap_soft_err e begin)
    | .ok _ =>
      .ok { address := (p.host, p.port)
            resolvedIp := resolvedIp
            newlyResolved := p.policy.isAlways
            sendTime := begin
            response := .success socketAddr resolveTime env.establishedElapsed }

/-- `TcpPinger::ping_inner` (tcp_pinger.rs lines 182-217): under
`ResolvePolicy::Always` resolve first (a resolution error is a soft
`Failure`); under `ResolvePolicy::Resolved` use the cached IP with no
lookup.  Returns the attempt result paired with the DNS-lookup trace. -/
def TcpPinger.ping_inner (p : TcpPinger) (env : TcpEnv) (begin : Nat) :
    Except String TcpPingResult × List String :=
  match p.policy with
  | .always =>
    match p.resolve_addr env with
    | (.error e, lk) => (.ok (p.wrap_soft_err e begin), lk)
    | (.ok ip, lk) => (p.afterResolve env begin ip (some env.resolveElapsed), lk)
  | .resolved ip => (p.afterResolve env begin ip none, [])

/-- `TcpPinger::ping` (tcp_pinger.rs lines 219-236): race `ping_inner`
against the timeout (`attempt = none` means the timer fired first, yielding
`wrap_timeout`); an `Ok` inner result is returned, while an inner hard `Err`
hits the `panic!` arm and aborts the owning task. -/
def TcpPinger.ping (p : TcpPinger) (attempt : Option TcpEnv) (now : Nat) :
    RustOutcome TcpPingResult × List String :=
  match attempt with
  | none => (.returned (p.wrap_timeout now), [])
  | some env =>
    match p.ping_inner env now with
    | (.ok res, lk) => (.returned res, lk)
    | (.error e, lk) =>
      (.panicked ("fatal error occurs when pinging " ++ p.host.toStr ++ ": " ++ e), lk)

/-- `TcpPinger::new` (tcp_pinger.rs lines 142-180), after the
`ServerName::try_from` classification: a literal IP fixes the policy to
`Resolved(ip)` with no lookup; a DNS name with `always_resolve` fixes
`Always`; otherwise one lookup is performed now and its first address is
frozen into `Resolved`.  Second component is the DNS-lookup trace. -/
def TcpPinger.new (host : ServerName) (port : Nat) (alwaysResolve : Bool)
    (timeout : Duration) (lookup : LookupFn) :
    Except String TcpPinger × List String :=
  match host with
  | .ipAddress ip =>
    (.ok { host := host, port := port, timeout := timeout, policy := .resolved ip }, [])
  | .dnsName name =>
    if alwaysResolve then
      (.ok { host := host, port := port, timeout := timeout, policy := .always }, [])
    else
      match lookup name with
      | .error e => (.error e, [name])
      | .ok [] => (.error ("No IP addresses found for host: " ++ name), [name])
      | .ok (ip :: _) =>
        (.ok { host := host, port := port, timeout := timeout, policy := .resolved ip }, [name])

/-! ## Outcome classification -/

/-- Classification of what one probe call did, as seen by the owning task. -/
inductive OutcomeClass : Type
  | success
  | failure
  | timeout
  | hardError
  | panicAbort
  deriving DecidableEq

/-- Class of a `TcpPingResponse` variant. -/
def tcpResponseClass : TcpPingResponse → OutcomeClass
  | .success _ _ _ => .success
  | .failure _ => .failure
  | .timeout => .timeout

/-- Class of a completed `TcpPinger::ping` call. -/
def tcpPingClass : RustOutcome TcpPingResult → OutcomeClass
  | .panicked _ => .panicAbort
  | .returned r => tcpResponseClass r.response

/-! ## HTTP probe capability (`src/http_pinger.rs`) -/

/-- `hyper::Version`. -/
inductive HttpVersion : Type
  | http09
  | http10
  | http11
  | http2
  | http3
  deriving DecidableEq

/-- `format!("{:?}", version)` for `hyper::Version`. -/
def HttpVersion.debugStr : HttpVersion → String
  | .http09 => "HTTP/0.9"
  | .http10 => "HTTP/1.0"
  | .http11 => "HTTP/1.1"
  | .http2 => "HTTP/2.0"
  | .http3 => "HTTP/3.0"

/-- `http_pinger::PingResult` (http_pinger.rs lines 45-54). -/
inductive PingResult : Type
  | success (httpStatus : Nat) (responseTime : Duration) (version : HttpVersion)
  | failure (reason : String)
  | timeout
  deriving DecidableEq

/-- `http_pinger::PingResponse` (http_pinger.rs lines 36-43); the method is
carried as its string form. -/
structure PingResponse where
  url : String
  ip : Option String
  sendTime : Nat
  method : String
  result : PingResult
  deriving DecidableEq

/-- `AsyncHttpPinger::wrap_soft_err` (http_pinger.rs lines 25-33). -/
def wrapHttpSoftErr (url method e : String) (begin : Nat) : PingResponse :=
  { url := url, ip := none, sendTime := begin, method := method
    result := .failure e }

/-- Class of a `PingResult` variant. -/
def httpResultClass : PingResult → OutcomeClass
  | .success _ _ _ => .success
  | .failure _ => .failure
  | .timeout => .timeout

/-- Class of a completed HTTP `ping` call (both backends return
`anyhow::Result<PingResponse>` and may abort on a panic). -/
def httpPingClass : RustOutcome (Except String PingResponse) → OutcomeClass
  | .panicked _ => .panicAbort
  | .returned (.error _) => .hardError
  | .returned (.ok r) => httpResultClass r.result

/-! ## HTTP probe, raw backend (`src/http_pinger/hyper_pinger.rs`) -/

/-- `HyperPinger` (hyper_pinger.rs lines 22-30).  The `url::Url` field is
represented by the pieces the probe path consumes: its display string, its
scheme and its host; the resolver handle arrives with the attempt
environment. -/
structure HyperPinger where
  urlString : String
  urlScheme : String
  urlHost : String
  port : Nat
  method : String
  timeout : Duration
  deriving DecidableEq

/-- Environment of one raw-backend attempt: results of each fallible step. -/
structure HyperEnv where
  resolveResult : Except String (List SocketAddr)
  tcpConnect : Except String Unit
  tlsConnect : Except String Unit
  handshake : Except String Unit
  driverJoin : Except String Unit
  sendResult : Except String Nat
  peerAddress : SocketAddr
  elapsed : Duration

/-- `HyperPinger::resolve` (hyper_pinger.rs lines 40-48): delegate to the
resolver, then `iter.next().unwrap()` — a successful but empty answer hits
`unwrap` on `None` and panics; the first address otherwise has its port
overwritten with the probe port. -/
def HyperPinger.resolve (p : HyperPinger)
    (resolveResult : Except String (List SocketAddr)) :
    RustOutcome (Except String SocketAddr) :=
  match resolveResult with
  | .error e => .returned (.error e)
  | .ok [] => .panicked "called Option::unwrap on a None value"
  | .ok (addr :: _) => .returned (.ok (addr.setPort p.port))

/-- Peer address and in-flight response of an established connection
(`Connect`, hyper_pinger.rs lines 32-37); the response and driver futures
live in the attempt environment. -/
structure HyperConnect where
  peerAddress : SocketAddr
  deriving DecidableEq

/-- `HyperPinger::connect_tls` / `connect_http` (hyper_pinger.rs lines
50-101): resolve, TCP-connect, TLS handshake when the scheme is https, then
the HTTP/1.1 handshake.  Each `?` propagates the step error as a hard
`Err`; the `unwrap` inside `resolve` can abort. -/
def HyperPinger.connect (p : HyperPinger) (env : HyperEnv) :
    RustOutcome (Except String HyperConnect) :=
  match p.resolve env.resolveResult with
  | .panicked m => .panicked m
  | .returned (.error e) => .returned (.error e)
  | .returned (.ok _) =>
    match env.tcpConnect with
    | .error e => .returned (.error e)
    | .ok _ =>
      match (if p.urlScheme = "https" then env.tlsConnect else .ok ()) with
      | .error e => .returned (.error e)
      | .ok _ =>
        match env.handshake with
        | .error e => .returned (.error e)
        | .ok _ => .returned (.ok { peerAddress := env.peerAddress })

/-- `HyperPinger::ping_inner` (hyper_pinger.rs lines 111-151): a connect
error (resolution, TCP, TLS, HTTP handshake) becomes a soft `Failure`; a
connection-driver join error becomes the hard `Err` "Connection error"; a
request-send error becomes the hard `Err` "Failed to send request"; a
response yields `Success` with the status and `Version::HTTP_11`. -/
def HyperPinger.ping_inner (p : HyperPinger) (env : HyperEnv) (begin : Nat) :
    RustOutcome (Except String PingResponse) :=
  match p.connect env with
  | .panicked m => .panicked m
  | .returned (.error e) =>
    .returned (.ok (wrapHttpSoftErr p.urlString p.method e begin))
  | .returned (.ok conn) =>
    match env.driverJoin with
    | .error e => .returned (.error ("Connection error: " ++ e))
    | .ok _ =>
      match env.sendResult with
      | .error e => .returned (.error ("Failed to send request: " ++ e))
      | .ok status =>
        .returned (.ok
          { url := p.urlString
            ip := some conn.peerAddress.ip.display
            sendTime := begin
            method := p.method
            result := .success status env.elapsed .http11 })

/-- `HyperPinger::ping` (hyper_pinger.rs lines 156-176): race `ping_inner`
against `timeout_at` (`attempt = none` means the timer fired first, yielding
the `Timeout` response); otherwise the inner result — including a hard
`Err` — is returned as-is. -/
def HyperPinger.ping (p : HyperPinger) (attempt : Option HyperEnv)
    (begin : Nat) : RustOutcome (Except String PingResponse) :=
  match attempt with
  | none =>
    .returned (.ok
      { url := p.urlString, ip := none, sendTime := begin
        method := p.method, result := .timeout })
  | some env => p.ping_inner env begin

/-! ## HTTP probe, pooled backend (`src/http_pinger/reqwest_pinger.rs`) -/

/-- `ReqwestPinger` (reqwest_pinger.rs lines 12-19), represented by the
fields the probe path consumes. -/
structure ReqwestPinger where
  urlString : String
  address : String
  method : String
  timeout : Duration
  deriving DecidableEq

/-- What one `reqwest` send produced on success. -/
structure ReqwestResp where
  status : Nat
  version : HttpVersion
  remoteAddr : Option SocketAddr
  elapsed : Duration
  deriving DecidableEq

/-- Environment of one pooled-backend attempt. -/
structure ReqwestEnv where
  sendResult : Except String ReqwestResp
  deriving DecidableEq

/-- `ReqwestPinger::ping_inner` (reqwest_pinger.rs lines 23-46): a transport
error becomes a soft `Failure`; a response yields `Success` — note
`response.remote_addr().unwrap()`, which panics when the remote address is
unavailable. -/
def ReqwestPinger.ping_inner (p : ReqwestPinger) (env : ReqwestEnv)
    (begin : Nat) : RustOutcome (Except String PingResponse) :=
  match env.sendResult with
  | .error e =>
    .returned (.ok (wrapHttpSoftErr p.urlString p.method e begin))
  | .ok resp =>
    match resp.remoteAddr with
    | none => .panicked "called Option::unwrap on a None value"
    | some addr =>
      .returned (.ok
        { url := p.urlString
          ip := some (addr.ip.display ++ ":" ++ toString addr.port)
          sendTime := begin
          method := p.method
          result := .success resp.status resp.elapsed resp.version })

/-- `ReqwestPinger::ping` (reqwest_pinger.rs lines 52-67): race `ping_inner`
against the timeout (`attempt = none` means the timer fired first, yielding
the `Timeout` response). -/
def ReqwestPinger.ping (p : ReqwestPinger) (attempt : Option ReqwestEnv)
    (begin : Nat) : RustOutcome (Except String PingResponse) :=
  match attempt with
  | none =>
    .returned (.ok
      { url := p.urlString, ip := none, sendTime := begin
        method := p.method, result := .timeout })
  | some env => p.ping_inner env begin

/-! ## Scheduler tick loop (`src/main.rs`, lines 97-108 and 142-153)

One tick runs `for _ in 0..retries { match pinger.ping().await { Ok(r) =>
{ record(r); break } Err(e) => { log(e) } } }`.  The attempts are modelled
as a function from the attempt index to the `Result` the `ping` call
produced; the loop returns the outcomes handed to the metrics aggregator
together with the number of `ping` calls issued. -/

/-- `Result::is_ok`. -/
def exceptIsOk : Except String α → Bool
  | .ok _ => true
  | .error _ => false

/-- The retry loop of one scheduler tick, starting at attempt index `i` with
`fuel` iterations left: an `Ok` response is recorded and breaks the loop; an
`Err` is only logged and the loop continues. -/
def tickLoopFrom (attempt : Nat → Except String α) :
    Nat → Nat → List α × Nat
  | 0, _ => ([], 0)
  | fuel + 1, i =>
    match attempt i with
    | .ok r => ([r], 1)
    | .error _ =>
      let rest := tickLoopFrom attempt fuel (i + 1)
      (rest.1, rest.2 + 1)

/-- One scheduler tick with up to `retries` attempts (main.rs lines 97-108
for HTTP, lines 142-153 for TCP — both loops have this shape). -/
def runTick (retries : Nat) (attempt : Nat → Except String α) :
    List α × Nat :=
  tickLoopFrom attempt retries 0

/-! ## Metrics aggregator (`src/metric.rs`) -/

/-- `metric::PingResponse` (metric.rs lines 11-16): the outcome
classification used in labels. -/
inductive MetricPingResponse : Type
  | success
  | timeout
  | failure
  deriving DecidableEq

/-- `HttpPingLabel` (metric.rs lines 18-26). -/
structure HttpPingLabel where
  url : String
  method : String
  ip : Option String
  response : MetricPingResponse
  version : Option String
  statusCode : Option String
  deriving DecidableEq

/-- `TcpPingLabel` (metric.rs lines 28-35). -/
structure TcpPingLabel where
  host : String
  port : String
  resolvedIp : String
  newlyResolved : String
  response : MetricPingResponse
  deriving DecidableEq

/-- `ResolveLabel` (referenced by timed_resolver.rs; keyed by hostname). -/
structure ResolveLabel where
  host : String
  deriving DecidableEq

/-- `PingRecord` (metric.rs lines 37-45). -/
structure PingRecord where
  timestamp : Nat
  url : String
  responseTimeMs : Nat
  statusCode : Option Nat
  ip : Option String
  error : Option String
  deriving DecidableEq

/-- One mutation applied to the process-wide metrics registry.  The
vocabulary includes a histogram observation so that histogram claims are
statable; which operations the aggregator actually emits is determined by
the `record_*` embeddings below. -/
inductive MetricOp : Type
  | httpGaugeSet (family : String) (label : HttpPingLabel) (value : Int)
  | httpCounterInc (family : String) (label : HttpPingLabel)
  | tcpGaugeSet (family : String) (label : TcpPingLabel) (value : Int)
  | tcpCounterInc (family : String) (label : TcpPingLabel)
  | scalarGaugeSet (name : String) (value : Int)
  | historyPush (queue : String) (rec : PingRecord)
  | resolveGaugeSet (family : String) (label : ResolveLabel) (value : Int)
  | resolveFailureInc (family : String) (label : ResolveLabel) (err : String)
  | resolveHistObserve (family : String) (label : ResolveLabel) (value : Nat)
  | histogramObserve (family : String) (value : Nat)
  deriving DecidableEq

/-- Whether an operation observes a value into a latency histogram. -/
def MetricOp.isHistObservation : MetricOp → Bool
  | .resolveHistObserve _ _ _ => true
  | .histogramObserve _ _ => true
  | _ => false

/-- `From<http_pinger::PingResponse> for HttpPingLabel` (metric.rs lines
348-375): version and status only on success; the method label is the
hard-coded string "HEAD" regardless of the probe's configured method. -/
def HttpPingLabel.ofResponse (response : PingResponse) : HttpPingLabel :=
  { url := response.url
    method := "HEAD"
    ip := response.ip
    response :=
      match response.result with
      | .success _ _ _ => .success
      | .failure _ => .failure
      | .timeout => .timeout
    version :=
      match response.result with
      | .success _ _ v => some v.debugStr
      | _ => none
    statusCode :=
      match response.result with
      | .success st _ _ => some (toString st)
      | _ => none }

/-- `From<tcp_pinger::TcpPingResult> for TcpPingLabel` (metric.rs lines
377-391). -/
def TcpPingLabel.ofResult (result : TcpPingResult) : TcpPingLabel :=
  { host := result.address.1.toStr
    port := toString result.address.2
    resolvedIp := result.resolvedIp.display
    newlyResolved := toString result.newlyResolved
    response :=
      match result.response with
      | .success _ _ _ => .success
      | .failure _ => .failure
      | .timeout => .timeout }

/-- `PingMetrics::record_http_ping` (metric.rs lines 136-184), as the list
of registry mutations it performs: on `Success` set the
`http_ping_response_time_ms` gauge to the latency in milliseconds;
unconditionally increment `http_ping_total` and set
`last_ping_timestamp`; on `Success` also append to the recent-ping
history.  No histogram is touched. -/
def PingMetrics.record_http_ping (now : Nat) (response : PingResponse) :
    List MetricOp :=
  let label := HttpPingLabel.ofResponse response
  (match response.result with
   | .success _ rt _ =>
     [.httpGaugeSet "http_ping_response_time_ms" label (Int.ofNat rt.asMillis)]
   | _ => []) ++
  [.httpCounterInc "http_ping_total" label,
   .scalarGaugeSet "last_ping_timestamp" (Int.ofNat now)] ++
  (match response.result with
   | .success st rt _ =>
     [.historyPush "http"
       { timestamp := now
         url := response.url
         responseTimeMs := rt.asMillis
         statusCode := some st
         ip := response.ip
         error := none }]
   | _ => [])

/-- `PingMetrics::record_tcp_ping` (metric.rs lines 186-236), as the list of
registry mutations it performs: on `Success` set the
`tcp_ping_response_time_ms` gauge to the established time in milliseconds;
unconditionally increment `tcp_ping_total` and set `last_ping_timestamp`;
on `Success` also append to the recent-ping history.  No histogram is
touched. -/
def PingMetrics.record_tcp_ping (now : Nat) (result : TcpPingResult) :
    List MetricOp :=
  let label := TcpPingLabel.ofResult result
  (match result.response with
   | .success _ _ et =>
     [.tcpGaugeSet "tcp_ping_response_time_ms" label (Int.ofNat et.asMillis)]
   | _ => []) ++
  [.tcpCounterInc "tcp_ping_total" label,
   .scalarGaugeSet "last_ping_timestamp" (Int.ofNat now)] ++
  (match result.response with
   | .success _ _ et =>
     [.historyPush "tcp"
       { timestamp := now
         url := result.address.1.toStr
         responseTimeMs := et.asMillis
         statusCode := none
         ip := some result.resolvedIp.display
         error := none }]
   | _ => [])

/-! ## Timing resolver decorator (`src/resolver/timed_resolver.rs`) -/

/-- Modelled from the spec: the sentinel value written to the
`resolve_time_us` gauge for a failed resolution.  The constant is declared
in a `metric.rs` revision not present under src/; its concrete value is
irrelevant to every theorem below. -/
def TIMEOUT_VALUE_US : Int := 2000000

/-- `impl TimeReporter for PingMetrics :: report_time` (timed_resolver.rs
lines 20-44): on failure set the sentinel gauge and bump the failure
counter; on success observe the elapsed microseconds into the resolve-time
histogram and set the gauge. -/
def PingMetrics.report_time (name : String) (time : Duration)
    (err : Option String) : List MetricOp :=
  let label : ResolveLabel := { host := name }
  match err with
  | some e =>
    [.resolveGaugeSet "resolve_time_us" label TIMEOUT_VALUE_US,
     .resolveFailureInc "resolve_failure" label e]
  | none =>
    [.resolveHistObserve "resolve_time_histogram_us" label time.asMicros,
     .resolveGaugeSet "resolve_time_us" label (Int.ofNat time.asMicros)]

/-- `TimedResolver::resolve` (timed_resolver.rs lines 56-77): await the
delegate, report the elapsed time and classification to the metrics
aggregator, then return the delegate result itself.  The delegate's result
and the observed elapsed time are inputs; the output pairs the returned
result with the metric mutations performed. -/
def TimedResolver.resolve (name : String)
    (delegateResult : Except String (List SocketAddr)) (elapsed : Duration) :
    Except String (List SocketAddr) × List MetricOp :=
  match delegateResult with
  | .ok addrs => (.ok addrs, PingMetrics.report_time name elapsed none)
  | .error e => (.error e, PingMetrics.report_time name elapsed (some e))

/-! ## Startup validation and task creation (`src/main.rs`, lines 180-262) -/

/-- One configured HTTP target (`config::HttpPingerEntry`), extended with
whether its pinger constructor succeeds (`HyperPinger::new` /
`ReqwestPinger::new`; a failing entry is logged and skipped by `main`). -/
structure HttpEntryCfg where
  url : String
  method : String
  ctorOk : Bool
  deriving DecidableEq

/-- One configured TCP target (`config::TcpPingerEntry`), extended with
whether `TcpPinger::new` succeeds. -/
structure TcpEntryCfg where
  host : String
  port : Nat
  ctorOk : Bool
  deriving DecidableEq

/-- `config::HttpPingerConfig` / `config::TcpPingerConfig` share this shape
for the fields `main` consumes. -/
structure ClassCfg (ε : Type) where
  retries : Nat
  timeoutMillis : Nat
  intervalMillis : Nat
  entries : List ε
  deriving DecidableEq

/-- `config::PingerConfig`, restricted to the fields `main` consumes. -/
structure PingerConfig where
  http : ClassCfg HttpEntryCfg
  tcp : ClassCfg TcpEntryCfg
  dnsTimeoutMillis : Nat
  measureDnsStats : Bool
  deriving DecidableEq

/-- A periodic probing task spawned by `main`. -/
inductive ScheduledTask : Type
  | http (url : String)
  | tcp (host : String) (port : Nat)
  deriving DecidableEq

/-- Whether a task probes an HTTP target. -/
def ScheduledTask.isHttpTask : ScheduledTask → Bool
  | .http _ => true
  | .tcp _ _ => false

/-- Whether a task probes a TCP target. -/
def ScheduledTask.isTcpTask : ScheduledTask → Bool
  | .http _ => false
  | .tcp _ _ => true

/-- The TCP block of `main` (main.rs lines 236-262): when TCP entries exist,
reject `interval < timeout` before spawning any TCP task, else spawn one
task per entry whose constructor succeeds.  `acc` is the list of tasks
already spawned by the HTTP block. -/
def startupTcp (c : PingerConfig) (acc : List ScheduledTask) :
    List ScheduledTask × Option String :=
  if c.tcp.entries.isEmpty then (acc, none)
  else if c.tcp.intervalMillis < c.tcp.timeoutMillis then
    (acc, some "TCP interval is less than timeout, which is not allowed")
  else
    (acc ++ c.tcp.entries.filterMap
      (fun e => if e.ctorOk then some (.tcp e.host e.port) else none), none)

/-- The startup sequence of `main` (main.rs lines 209-262): the HTTP block
first — when HTTP entries exist, reject `interval < timeout` before
spawning any HTTP task — then the TCP block.  Returns the tasks spawned
before `main` returned, and the startup error if `main` returned one. -/
def startup (c : PingerConfig) : List ScheduledTask × Option String :=
  if c.http.entries.isEmpty then startupTcp c []
  else if c.http.intervalMillis < c.http.timeoutMillis then
    ([], some "HTTP interval is less than timeout, which is not allowed")
  else
    startupTcp c
      (c.http.entries.filterMap
        (fun e => if e.ctorOk then some (.http e.url) else none))

/-! ## URL parsing and TCP address normalization
(`TcpPinger::normalize_address`, tcp_pinger.rs lines 47-92)

`normalize_address` delegates to `url::Url::parse`, a WHATWG URL parser.
The parser below is modelled from the url crate's documented WHATWG
behavior, restricted to what the claim inputs exercise: a parsed URL always
carries a non-empty scheme (inputs with no valid scheme, such as
`203.0.113.5:443`, fail with a relative-URL error); a non-special scheme
not followed by `//` yields an opaque path with no host, no port and no
credentials (so `host:1` parses with scheme `host` and host `None`);
special schemes parse an authority with optional userinfo and port. -/

/-- ASCII letter. -/
def isAsciiAlpha (c : Char) : Bool :=
  (65 ≤ c.toNat && c.toNat ≤ 90) || (97 ≤ c.toNat && c.toNat ≤ 122)

/-- ASCII digit. -/
def isAsciiDigit (c : Char) : Bool :=
  48 ≤ c.toNat && c.toNat ≤ 57

/-- Character allowed in a scheme after its first letter. -/
def isSchemeChar (c : Char) : Bool :=
  isAsciiAlpha c || isAsciiDigit c || c = '+' || c = '-' || c = '.'

/-- ASCII lowercase of one character (schemes are lowercased). -/
def asciiLowerChar (c : Char) : Char :=
  if 65 ≤ c.toNat ∧ c.toNat ≤ 90 then Char.ofNat (c.toNat + 32) else c

/-- Numeric value of a digit string. -/
def digitsVal (cs : List Char) : Nat :=
  cs.foldl (fun acc c => acc * 10 + (c.toNat - 48)) 0

/-- Split off the scheme: an ASCII letter followed by scheme characters and
a colon.  Returns the scheme characters and the input after the colon, or
`none` when the input has no valid scheme. -/
def takeSchemeSplit : List Char → Option (List Char × List Char)
  | [] => none
  | c :: cs =>
    if isAsciiAlpha c then
      match cs.span isSchemeChar with
      | (body, d :: tail) => if d = ':' then some (c :: body, tail) else none
      | (_, []) => none
    else none

/-- Everything up to (but excluding) the first of the delimiter characters,
paired with the rest (delimiter still attached). -/
def takeUntilDelims (delims : List Char) : List Char → List Char × List Char
  | [] => ([], [])
  | c :: cs =>
    if delims.contains c then ([], c :: cs)
    else
      let r := takeUntilDelims delims cs
      (c :: r.1, r.2)

/-- Split at the first occurrence of `sep`; `none` in the second component
when `sep` does not occur. -/
def splitOnFirst (sep : Char) : List Char → List Char × Option (List Char)
  | [] => ([], none)
  | c :: cs =>
    if c = sep then ([], some cs)
    else
      let r := splitOnFirst sep cs
      (c :: r.1, r.2)

/-- Split at the last occurrence of `sep`; `none` when `sep` does not
occur. -/
def splitOnLast (sep : Char) : List Char → Option (List Char × List Char)
  | [] => none
  | c :: cs =>
    match splitOnLast sep cs with
    | some (a, b) => some (c :: a, b)
    | none => if c = sep then some ([], cs) else none

/-- `url::Url`, restricted to the accessors `normalize_address` consumes. -/
structure Url where
  scheme : String
  host : Option String
  port : Option Nat
  path : String
  query : Option String
  fragment : Option String
  username : String
  password : Option String
  deriving DecidableEq

/-- `url::ParseError`, restricted to the variants reachable here. -/
inductive UrlParseError : Type
  | relativeUrlWithoutBase
  | emptyHost
  deriving DecidableEq

/-- The WHATWG special schemes and their default ports. -/
def defaultPort (scheme : String) : Option Nat :=
  if scheme = "http" then some 80
  else if scheme = "ws" then some 80
  else if scheme = "https" then some 443
  else if scheme = "wss" then some 443
  else if scheme = "ftp" then some 21
  else none

/-- Whether a scheme is a WHATWG special scheme. -/
def isSpecialScheme (scheme : String) : Bool :=
  ["http", "https", "ws", "wss", "ftp", "file"].contains scheme

/-- Query and fragment of the tail that follows the path. -/
def parseQueryFragment : List Char → Option String × Option String
  | [] => (none, none)
  | c :: rest =>
    if c = '?' then
      match takeUntilDelims ['#'] rest with
      | (q, _ :: f) => (some (String.mk q), some (String.mk f))
      | (q, []) => (some (String.mk q), none)
    else (none, some (String.mk rest))

/-- Authority, path, query and fragment of a URL whose scheme is followed by
an authority (`//...`, or any special scheme). -/
def parseAuthority (scheme : String) (special : Bool) (cs : List Char) :
    Except UrlParseError Url :=
  let ar := takeUntilDelims ['/', '?', '#'] cs
  let ui : Option (List Char) × List Char :=
    match splitOnLast '@' ar.1 with
    | some x => (some x.1, x.2)
    | none => (none, ar.1)
  let creds : String × Option String :=
    match ui.1 with
    | none => ("", none)
    | some u =>
      match splitOnFirst ':' u with
      | (nm, some pw) => (String.mk nm, some (String.mk pw))
      | (nm, none) => (String.mk nm, none)
  let hp : List Char × Option (List Char) :=
    match splitOnLast ':' ui.2 with
    | some x => if x.2 ≠ [] ∧ x.2.all isAsciiDigit then (x.1, some x.2) else (ui.2, none)
    | none => (ui.2, none)
  let port : Option Nat :=
    match hp.2 with
    | some p => if defaultPort scheme = some (digitsVal p) then none else some (digitsVal p)
    | none => none
  let pr := takeUntilDelims ['?', '#'] ar.2
  let qf := parseQueryFragment pr.2
  if special ∧ hp.1 = [] then .error .emptyHost
  else
    .ok { scheme := scheme
          host := some (String.mk hp.1)
          port := port
          path := if pr.1 = [] ∧ special then "/" else String.mk pr.1
          query := qf.1
          fragment := qf.2
          username := creds.1
          password := creds.2 }

/-- `url::Url::parse` without a base URL, modelled from the url crate's
WHATWG behavior: no valid scheme is a parse error; a special scheme (or an
explicit `//`) leads to authority parsing; any other scheme yields an
opaque path with no host and no port. -/
def urlParse (s : String) : Except UrlParseError Url :=
  match takeSchemeSplit s.toList with
  | none => .error .relativeUrlWithoutBase
  | some (schemeCs, rest) =>
    let scheme := String.mk (schemeCs.map asciiLowerChar)
    let special := isSpecialScheme scheme
    if special ∨ rest.take 2 = ['/', '/'] then
      parseAuthority scheme special (rest.dropWhile (· = '/'))
    else
      let (pathCs, rest1) := takeUntilDelims ['?', '#'] rest
      let (query, fragment) := parseQueryFragment rest1
      .ok { scheme := scheme
            host := none
            port := none
            path := String.mk pathCs
            query := query
            fragment := fragment
            username := ""
            password := none }

/-- Textual form of a parse error (the `?` in `normalize_address` converts
it into the returned error). -/
def UrlParseError.msg : UrlParseError → String
  | .relativeUrlWithoutBase => "relative URL without a base"
  | .emptyHost => "empty host"

/-- `TcpPinger::normalize_address` (tcp_pinger.rs lines 47-92): parse the
address as a URL, then require a host, a port, no scheme, no path, no
query, no fragment and no credentials, in that order. -/
def TcpPinger.normalize_address (address : String) : Except String Url :=
  match urlParse address with
  | .error e => .error e.msg
  | .ok url =>
    if url.host.isNone then
      .error ("Address must contain a valid host: " ++ address)
    else if url.port.isNone then
      .error ("Address must contain a valid port: " ++ address)
    else if url.scheme ≠ "" then
      .error ("Address should not contain a scheme: " ++ address)
    else if url.path ≠ "" then
      .error ("Address should not contain a path: " ++ address)
    else if url.query.isSome then
      .error ("Address should not contain a query: " ++ address)
    else if url.fragment.isSome then
      .error ("Address should not contain a fragment: " ++ address)
    else if url.username ≠ "" ∨ url.password.isSome then
      .error ("Address should not contain credentials: " ++ address)
    else .ok url

/-! ## Sample values used by concrete theorems -/

/-- A TCP probe attempt environment in which the process cannot allocate a
local socket (file-descriptor exhaustion). -/
def socketExhaustedEnv : TcpEnv :=
  { lookup := fun _ => .ok []
    socketNewV4 := .error "Too many open files (os error 24)"
    socketNewV6 := .error "Too many open files (os error 24)"
    connect := fun _ => .ok ()
    resolveElapsed := { micros := 0 }
    establishedElapsed := { micros := 0 } }

/-- A TCP prober for the literal target 127.0.0.1:80 (policy fixed to the
literal address at construction). -/
def loopbackTcpPinger : TcpPinger :=
  { host := .ipAddress (.v4 2130706433)
    port := 80
    timeout := { micros := 1000000 }
    policy := .resolved (.v4 2130706433) }

/-! ## C1 -/

/-- C1: the claim says a probe-level fatal error such as inability to
allocate a local socket yields a Failure outcome and never halts the owning
task.  The code disagrees: `TcpSocket::new_v4()?` propagates the allocation
error out of `ping_inner` as a hard `Err`, and `TcpPinger::ping` maps every
inner hard `Err` to `panic!`, aborting the owning task instead of returning
a Failure.  Evaluated here at a concrete socket-allocation failure. -/
theorem tcp_socket_alloc_error_panics :
    (loopbackTcpPinger.ping (some socketExhaustedEnv) 0).1 =
      RustOutcome.panicked
        ("fatal error occurs when pinging " ++ (IpAddr.v4 2130706433).display ++
          ": Too many open files (os error 24)") ∧
    tcpPingClass (loopbackTcpPinger.ping (some socketExhaustedEnv) 0).1 =
      OutcomeClass.panicAbort :=
  ⟨rfl, rfl⟩

/-! ## C2 -/

/-- C2: for every probe (TCP, raw HTTP backend, pooled HTTP backend), when
the underlying multi-step operation does not complete within the configured
timeout (the timer side of the race fires first), the returned outcome is
the Timeout variant — not Success, not a hard error, not an abort. -/
theorem timeout_yields_timeout_outcome :
    (∀ (p : TcpPinger) (now : Nat),
      tcpPingClass (p.ping none now).1 = OutcomeClass.timeout) ∧
    (∀ (hp : HyperPinger) (now : Nat),
      httpPingClass (hp.ping none now) = OutcomeClass.timeout) ∧
    (∀ (rp : ReqwestPinger) (now : Nat),
      httpPingClass (rp.ping none now) = OutcomeClass.timeout) :=
  ⟨fun _ _ => rfl, fun _ _ => rfl, fun _ _ => rfl⟩

/-! ## C7 -/

/-- C7: a TCP target whose host is a literal IP gets the policy
`Resolved(ip)` fixed at construction, and neither construction nor any
probe attempt (completed or timed out) performs a DNS lookup. -/
theorem literal_ip_no_dns_resolution :
    ∀ (ip : IpAddr) (port : Nat) (alwaysResolve : Bool) (timeout : Duration)
      (lookup : LookupFn),
      TcpPinger.new (.ipAddress ip) port alwaysResolve timeout lookup =
        (.ok { host := .ipAddress ip, port := port, timeout := timeout
               policy := .resolved ip }, []) ∧
      ∀ (env : TcpEnv) (now : Nat),
        (TcpPinger.ping { host := .ipAddress ip, port := port
                          timeout := timeout, policy := .resolved ip }
          (some env) now).2 = [] ∧
        (TcpPinger.ping { host := .ipAddress ip, port := port
                          timeout := timeout, policy := .resolved ip }
          none now).2 = [] := by
  intro ip port alwaysResolve timeout lookup
  refine ⟨rfl, ?_⟩
  intro env now
  refine ⟨?_, rfl⟩
  unfold TcpPinger.ping TcpPinger.ping_inner
  cases h : TcpPinger.afterResolve
      { host := .ipAddress ip, port := port, timeout := timeout
        policy := .resolved ip } env now ip none <;> simp [h]

/-! ## C8 -/

/-- C8: the timing resolver decorator returns exactly the delegate's result
(the same address sequence on success, the same error on failure); only the
metric side effects differ. -/
theorem timed_resolver_transparent :
    ∀ (name : String) (delegateResult : Except String (List SocketAddr))
      (elapsed : Duration),
      (TimedResolver.resolve name delegateResult elapsed).1 = delegateResult := by
  intro name delegateResult elapsed
  cases delegateResult <;> rfl

/-! ## C9 -/

/-- C9: when the raw HTTP backend's DNS resolution succeeds with an empty
address sequence, `HyperPinger::resolve` neither returns a Failure outcome
nor a resolution error — `iter.next().unwrap()` panics, aborting the
attempt, and the panic propagates through the whole `ping` call. -/
theorem hyper_resolve_empty_addrs_panics :
    ∀ (p : HyperPinger) (env : HyperEnv) (now : Nat),
      p.resolve (.ok []) =
        RustOutcome.panicked "called Option::unwrap on a None value" ∧
      p.ping (some { env with resolveResult := .ok [] }) now =
        RustOutcome.panicked "called Option::unwrap on a None value" ∧
      httpPingClass (p.ping (some { env with resolveResult := .ok [] }) now) =
        OutcomeClass.panicAbort :=
  fun _ _ _ => ⟨rfl, rfl, rfl⟩

/-! ## C10 -/

/-- C10: the metric label built from an HTTP probe response always carries
the method string "HEAD", whatever method the probe actually used. -/
theorem http_ping_label_method_head :
    ∀ response : PingResponse,
      (HttpPingLabel.ofResponse response).method = "HEAD" :=
  fun _ => rfl

/-! ## C3 -/

/-- An HTTP probe response carrying a Failure outcome (connection refused),
as handed back by `ping` inside an `Ok`. -/
def refusedResponse : PingResponse :=
  { url := "http://example.test/"
    ip := none
    sendTime := 0
    method := "GET"
    result := .failure "connection refused" }

/-- C3 counterexample: the claim says a Failure outcome causes a further
attempt within the tick (up to `retries`).  With `retries = 2` and every
attempt completing with a Failure outcome, the claim entails two issued
attempts; the loop of `main.rs` breaks on any `Ok` response — Failure
included — so exactly one attempt is issued. -/
theorem tick_failure_stops_retry_loop_cex :
    runTick 2 (fun _ => Except.ok refusedResponse) = ([refusedResponse], 1) ∧
    (runTick 2 (fun _ => Except.ok refusedResponse)).2 ≠ 2 := by
  exact ⟨rfl, by decide⟩

/-- Behavior of the tick retry loop from an arbitrary start index: at most
`fuel` attempts are issued; either every attempt erred (nothing recorded,
all `fuel` attempts issued) or the first non-`Err` attempt ends the loop
and its response is the only one recorded. -/
theorem tickLoopFrom_spec (attempt : Nat → Except String α) :
    ∀ (fuel i : Nat),
      (tickLoopFrom attempt fuel i).2 ≤ fuel ∧
      (((tickLoopFrom attempt fuel i).1 = [] ∧
          (tickLoopFrom attempt fuel i).2 = fuel ∧
          ∀ j, j < fuel → exceptIsOk (attempt (i + j)) = false) ∨
        (∃ r, (tickLoopFrom attempt fuel i).1 = [r] ∧
          1 ≤ (tickLoopFrom attempt fuel i).2 ∧
          attempt (i + ((tickLoopFrom attempt fuel i).2 - 1)) = .ok r ∧
          ∀ j, j + 1 < (tickLoopFrom attempt fuel i).2 →
            exceptIsOk (attempt (i + j)) = false)) := by
  intro fuel
  induction fuel with
  | zero =>
    intro i
    exact ⟨Nat.le_refl 0, Or.inl ⟨rfl, rfl, fun j hj => absurd hj (Nat.not_lt_zero j)⟩⟩
  | succ n ih =>
    intro i
    cases hatt : attempt i with
    | ok r =>
      refine ⟨?_, Or.inr ⟨r, ?_, ?_, ?_, ?_⟩⟩ <;>
        simp [tickLoopFrom, hatt]
    | error e =>
      have hrec := ih (i + 1)
      constructor
      · simp only [tickLoopFrom, hatt]
        exact Nat.succ_le_succ hrec.1
      · rcases hrec.2 with ⟨hnil, hcnt, herrs⟩ | ⟨r, hrec1, hge, hok, herrs⟩
        · left
          refine ⟨by simp [tickLoopFrom, hatt, hnil], by simp [tickLoopFrom, hatt, hcnt], ?_⟩
          intro j hj
          cases j with
          | zero => simpa [exceptIsOk] using congrArg exceptIsOk hatt
          | succ k =>
            have hk : k < n := by omega
            have := herrs k hk
            simpa [Nat.add_assoc, Nat.add_comm 1 k] using this
        · right
          refine ⟨r, by simp [tickLoopFrom, hatt, hrec1], ?_, ?_, ?_⟩
          · simp only [tickLoopFrom, hatt]
            omega
          · simp only [tickLoopFrom, hatt]
            convert hok using 2
            omega
          · intro j hj
            simp only [tickLoopFrom, hatt] at hj
            cases j with
            | zero => simpa [exceptIsOk] using congrArg exceptIsOk hatt
            | succ k =>
              have hk : k + 1 < (tickLoopFrom attempt n (i + 1)).2 := by omega
              have := herrs k hk
              simpa [Nat.add_assoc, Nat.add_comm 1 k] using this

/-- C3 amended: per tick at most `retries` attempts are issued, and the
loop stops as soon as an attempt completes with an outcome — Success,
Failure and Timeout all end the retry loop, since the loop breaks on any
`Ok` response; only a hard-error (`Err`) attempt causes a further attempt,
and such attempts hand nothing to the Metrics Aggregator.  Either all
attempts erred and nothing is recorded, or the first `Ok` response is the
single outcome handed to the aggregator. -/
theorem tick_retry_loop_spec :
    ∀ (retries : Nat) (attempt : Nat → Except String PingResponse),
      (runTick retries attempt).2 ≤ retries ∧
      (((runTick retries attempt).1 = [] ∧
          (runTick retries attempt).2 = retries ∧
          ∀ j, j < retries → exceptIsOk (attempt j) = false) ∨
        (∃ r, (runTick retries attempt).1 = [r] ∧
          1 ≤ (runTick retries attempt).2 ∧
          attempt ((runTick retries attempt).2 - 1) = .ok r ∧
          ∀ j, j + 1 < (runTick retries attempt).2 →
            exceptIsOk (attempt j) = false)) := by
  intro retries attempt
  have h := tickLoopFrom_spec attempt retries 0
  simpa [runTick] using h

/-! ## C5 -/

/-- A successful HTTP probe response (status 200 in 123.456 ms). -/
def sampleHttpSuccess : PingResponse :=
  { url := "https://example.test/"
    ip := some ((IpAddr.v4 3221225985).display)
    sendTime := 0
    method := "GET"
    result := .success 200 { micros := 123456 } .http11 }

/-- A successful TCP probe result (established in 123.456 ms). -/
def sampleTcpSuccess : TcpPingResult :=
  { address := (.dnsName "example.test", 443)
    resolvedIp := .v4 3221225985
    newlyResolved := true
    sendTime := 0
    response := .success { ip := .v4 3221225985, port := 443 }
        (some { micros := 2000 }) { micros := 123456 } }

/-- C5 counterexample: the claim says every Success outcome is observed
into a latency histogram with exponential buckets.  At these concrete
Success outcomes, neither `record_http_ping` nor `record_tcp_ping`
performs any histogram observation — the registry holds only gauges and
counters for probe outcomes. -/
theorem record_ping_no_histogram_cex :
    (PingMetrics.record_http_ping 1700000000 sampleHttpSuccess).all
      (fun op => !op.isHistObservation) = true ∧
    (PingMetrics.record_tcp_ping 1700000000 sampleTcpSuccess).all
      (fun op => !op.isHistObservation) = true := by
  exact ⟨rfl, rfl⟩

/-- C5 amended: on a Success outcome the aggregator sets a point gauge of
the latest latency in milliseconds labeled by target identity (plus
status/version for HTTP via the label), increments a total counter with
the same label, updates the last-ping timestamp and appends to the
recent-ping history; no histogram is observed. -/
theorem record_ping_success_gauge_counter :
    (∀ (now : Nat) (r : PingResponse) (st : Nat) (rt : Duration)
        (v : HttpVersion), r.result = .success st rt v →
      PingMetrics.record_http_ping now r =
        [.httpGaugeSet "http_ping_response_time_ms" (HttpPingLabel.ofResponse r)
            (Int.ofNat rt.asMillis),
         .httpCounterInc "http_ping_total" (HttpPingLabel.ofResponse r),
         .scalarGaugeSet "last_ping_timestamp" (Int.ofNat now),
         .historyPush "http"
            { timestamp := now, url := r.url, responseTimeMs := rt.asMillis
              statusCode := some st, ip := r.ip, error := none }] ∧
      ∀ op ∈ PingMetrics.record_http_ping now r,
        op.isHistObservation = false) ∧
    (∀ (now : Nat) (t : TcpPingResult) (ep : SocketAddr) (rt : Option Duration)
        (et : Duration), t.response = .success ep rt et →
      PingMetrics.record_tcp_ping now t =
        [.tcpGaugeSet "tcp_ping_response_time_ms" (TcpPingLabel.ofResult t)
            (Int.ofNat et.asMillis),
         .tcpCounterInc "tcp_ping_total" (TcpPingLabel.ofResult t),
         .scalarGaugeSet "last_ping_timestamp" (Int.ofNat now),
         .historyPush "tcp"
            { timestamp := now, url := t.address.1.toStr
              responseTimeMs := et.asMillis, statusCode := none
              ip := some t.resolvedIp.display, error := none }] ∧
      ∀ op ∈ PingMetrics.record_tcp_ping now t,
        op.isHistObservation = false) := by
  constructor
  · intro now r st rt v h
    have hrec : PingMetrics.record_http_ping now r =
        [.httpGaugeSet "http_ping_response_time_ms" (HttpPingLabel.ofResponse r)
            (Int.ofNat rt.asMillis),
         .httpCounterInc "http_ping_total" (HttpPingLabel.ofResponse r),
         .scalarGaugeSet "last_ping_timestamp" (Int.ofNat now),
         .historyPush "http"
            { timestamp := now, url := r.url, responseTimeMs := rt.asMillis
              statusCode := some st, ip := r.ip, error := none }] := by
      simp [PingMetrics.record_http_ping, h]
    refine ⟨hrec, ?_⟩
    intro op hop
    rw [hrec] at hop
    simp only [List.mem_cons, List.not_mem_nil, or_false] at hop
    rcases hop with h1 | h1 | h1 | h1 <;> subst h1 <;> rfl
  · intro now t ep rt et h
    have hrec : PingMetrics.record_tcp_ping now t =
        [.tcpGaugeSet "tcp_ping_response_time_ms" (TcpPingLabel.ofResult t)
            (Int.ofNat et.asMillis),
         .tcpCounterInc "tcp_ping_total" (TcpPingLabel.ofResult t),
         .scalarGaugeSet "last_ping_timestamp" (Int.ofNat now),
         .historyPush "tcp"
            { timestamp := now, url := t.address.1.toStr
              responseTimeMs := et.asMillis, statusCode := none
              ip := some t.resolvedIp.display, error := none }] := by
      simp [PingMetrics.record_tcp_ping, h]
    refine ⟨hrec, ?_⟩
    intro op hop
    rw [hrec] at hop
    simp only [List.mem_cons, List.not_mem_nil, or_false] at hop
    rcases hop with h1 | h1 | h1 | h1 <;> subst h1 <;> rfl

/-- C5 amended, witnessed at the concrete Success outcomes above. -/
theorem record_ping_success_gauge_counter_witness :
    (PingMetrics.record_http_ping 1700000000 sampleHttpSuccess =
        [.httpGaugeSet "http_ping_response_time_ms"
            (HttpPingLabel.ofResponse sampleHttpSuccess) (Int.ofNat 123),
         .httpCounterInc "http_ping_total"
            (HttpPingLabel.ofResponse sampleHttpSuccess),
         .scalarGaugeSet "last_ping_timestamp" (Int.ofNat 1700000000),
         .historyPush "http"
            { timestamp := 1700000000, url := sampleHttpSuccess.url
              responseTimeMs := 123, statusCode := some 200
              ip := sampleHttpSuccess.ip, error := none }] ∧
      ∀ op ∈ PingMetrics.record_http_ping 1700000000 sampleHttpSuccess,
        op.isHistObservation = false) ∧
    (PingMetrics.record_tcp_ping 1700000000 sampleTcpSuccess =
        [.tcpGaugeSet "tcp_ping_response_time_ms"
            (TcpPingLabel.ofResult sampleTcpSuccess) (Int.ofNat 123),
         .tcpCounterInc "tcp_ping_total" (TcpPingLabel.ofResult sampleTcpSuccess),
         .scalarGaugeSet "last_ping_timestamp" (Int.ofNat 1700000000),
         .historyPush "tcp"
            { timestamp := 1700000000
              url := (ServerName.dnsName "example.test").toStr
              responseTimeMs := 123, statusCode := none
              ip := some ((IpAddr.v4 3221225985).display), error := none }] ∧
      ∀ op ∈ PingMetrics.record_tcp_ping 1700000000 sampleTcpSuccess,
        op.isHistObservation = false) :=
  ⟨record_ping_success_gauge_counter.1 1700000000 sampleHttpSuccess 200
      { micros := 123456 } .http11 rfl,
   record_ping_success_gauge_counter.2 1700000000 sampleTcpSuccess
      { ip := .v4 3221225985, port := 443 } (some { micros := 2000 })
      { micros := 123456 } rfl⟩

/-! ## C6 -/

/-- A configuration whose HTTP interval (1000 ms) is below its timeout
(2000 ms) but whose entry lists are empty. -/
def emptyEntriesBadCfg : PingerConfig :=
  { http := { retries := 3, timeoutMillis := 2000, intervalMillis := 1000
              entries := [] }
    tcp := { retries := 3, timeoutMillis := 2000, intervalMillis := 1000
             entries := [] }
    dnsTimeoutMillis := 100
    measureDnsStats := false }

/-- C6 counterexample: the claim says a configuration whose interval is
less than its timeout is rejected at startup with an error.  With no
configured entries for the class, `main` skips the check entirely:
`interval < timeout` holds yet startup completes without an error. -/
theorem startup_empty_class_not_rejected_cex :
    emptyEntriesBadCfg.http.intervalMillis <
      emptyEntriesBadCfg.http.timeoutMillis ∧
    emptyEntriesBadCfg.tcp.intervalMillis <
      emptyEntriesBadCfg.tcp.timeoutMillis ∧
    startup emptyEntriesBadCfg = ([], none) := by
  exact ⟨by decide, by decide, rfl⟩

/-- C6 amended: for a target class with at least one configured entry, a
configuration whose interval is less than its timeout makes startup return
an error before any task of that class is scheduled; the check runs once in
`main`, not per tick. -/
theorem startup_interval_lt_timeout_rejected :
    ∀ c : PingerConfig,
      (c.http.entries ≠ [] →
        c.http.intervalMillis < c.http.timeoutMillis →
        (startup c).2 =
          some "HTTP interval is less than timeout, which is not allowed" ∧
        (startup c).1 = []) ∧
      (c.tcp.entries ≠ [] →
        c.tcp.intervalMillis < c.tcp.timeoutMillis →
        ((startup c).2).isSome = true ∧
        ∀ t ∈ (startup c).1, t.isTcpTask = false) := by
  intro c
  constructor
  · intro hne hlt
    have hne' : c.http.entries.isEmpty = false := by
      cases h : c.http.entries
      · exact absurd h hne
      · rfl
    constructor <;> simp [startup, hne', hlt]
  · intro htne htlt
    have htne' : c.tcp.entries.isEmpty = false := by
      cases h : c.tcp.entries
      · exact absurd h htne
      · rfl
    have htasks : ∀ t ∈ (c.http.entries.filterMap
        (fun e => if e.ctorOk then some (.http e.url) else none) :
          List ScheduledTask), t.isTcpTask = false := by
      intro t ht
      rcases List.mem_filterMap.mp ht with ⟨e, _, hfe⟩
      by_cases hok : e.ctorOk
      · simp only [hok, if_true] at hfe
        rw [← Option.some_inj.mp hfe]
        rfl
      · simp [hok] at hfe
    by_cases hhe : c.http.entries.isEmpty
    · constructor <;> simp [startup, startupTcp, hhe, htne', htlt]
    · by_cases hhlt : c.http.intervalMillis < c.http.timeoutMillis
      · constructor <;> simp [startup, startupTcp, hhe, hhlt]
      · constructor
        · simp [startup, startupTcp, hhe, hhlt, htne', htlt]
        · simp only [startup, startupTcp, hhe, hhlt, htne', htlt]
          simp only [Bool.false_eq_true, if_false, if_true]
          exact htasks

/-- A configuration with one entry per class and, for both classes,
interval (100 ms) below timeout (500 ms). -/
def bothClassesBadCfg : PingerConfig :=
  { http := { retries := 1, timeoutMillis := 500, intervalMillis := 100
              entries := [{ url := "http://example.test/", method := "GET"
                            ctorOk := true }] }
    tcp := { retries := 1, timeoutMillis := 500, intervalMillis := 100
             entries := [{ host := "example.test", port := 80
                           ctorOk := true }] }
    dnsTimeoutMillis := 100
    measureDnsStats := false }

/-- C6 amended, witnessed at a concrete configuration with non-empty entry
lists for both classes. -/
theorem startup_interval_lt_timeout_rejected_witness :
    ((startup bothClassesBadCfg).2 =
        some "HTTP interval is less than timeout, which is not allowed" ∧
      (startup bothClassesBadCfg).1 = []) ∧
    (((startup bothClassesBadCfg).2).isSome = true ∧
      ∀ t ∈ (startup bothClassesBadCfg).1, t.isTcpTask = false) :=
  ⟨(startup_interval_lt_timeout_rejected bothClassesBadCfg).1
      (by decide) (by decide),
   (startup_interval_lt_timeout_rejected bothClassesBadCfg).2
      (by decide) (by decide)⟩

/-! ## C4 -/

/-- A scheme split off by `takeSchemeSplit` is never empty: it always
starts with the leading ASCII letter. -/
theorem takeSchemeSplit_ne_nil :
    ∀ (cs sch rest : List Char),
      takeSchemeSplit cs = some (sch, rest) → sch ≠ [] := by
  intro cs sch rest h
  cases cs with
  | nil => simp [takeSchemeSplit] at h
  | cons c cs =>
    simp only [takeSchemeSplit] at h
    split at h
    · split at h
      · split at h
        · simp only [Option.some.injEq, Prod.mk.injEq] at h
          intro hnil
          rw [hnil] at h
          exact List.cons_ne_nil _ _ h.1
        · exact absurd h (by simp)
      · exact absurd h (by simp)
    · exact absurd h (by simp)

/-- `parseAuthority` never changes the scheme it is given. -/
theorem parseAuthority_scheme :
    ∀ (scheme : String) (special : Bool) (cs : List Char) (u : Url),
      parseAuthority scheme special cs = .ok u → u.scheme = scheme := by
  intro scheme special cs u h
  simp only [parseAuthority] at h
  split at h
  · exact absurd h (by simp)
  · simp only [Except.ok.injEq] at h
    rw [← h]

/-- Any successfully parsed URL carries a non-empty scheme (the url crate
invariant that defeats `normalize_address`). -/
theorem urlParse_scheme_ne_empty :
    ∀ (s : String) (u : Url), urlParse s = .ok u → u.scheme ≠ "" := by
  intro s u h hempty
  simp only [urlParse] at h
  rcases hts : takeSchemeSplit s.toList with _ | ⟨schemeCs, rest⟩
  · rw [hts] at h
    exact absurd h (by simp)
  · rw [hts] at h
    simp only [] at h
    have hne : schemeCs ≠ [] := takeSchemeSplit_ne_nil s.toList schemeCs rest hts
    have hmapne : schemeCs.map asciiLowerChar ≠ [] := by
      intro hmap
      exact hne (List.map_eq_nil_iff.mp hmap)
    have hschemene : String.mk (schemeCs.map asciiLowerChar) ≠ "" := by
      intro hstr
      exact hmapne (congrArg String.data hstr)
    split at h
    · have := parseAuthority_scheme _ _ _ u h
      rw [hempty] at this
      exact hschemene this.symm
    · simp only [Except.ok.injEq] at h
      rw [← h] at hempty
      exact hschemene hempty

/-- C4: the claim says `normalize_address` accepts bare host:port inputs
such as "host:1" and "203.0.113.5:443" while rejecting inputs with a
scheme, path, query, fragment or credentials.  The code does reject the
invalid inputs, but it also rejects every bare host:port: "host:1" parses
with scheme "host" and no host (opaque path), "203.0.113.5:443" fails to
parse at all, and in fact every successfully parsed URL has a non-empty
scheme, so the no-scheme check of `normalize_address` can never pass and
the function accepts nothing. -/
theorem normalize_address_accepts_nothing :
    (∀ address : String,
      exceptIsOk (TcpPinger.normalize_address address) = false) ∧
    TcpPinger.normalize_address "host:1" =
      .error "Address must contain a valid host: host:1" ∧
    TcpPinger.normalize_address "203.0.113.5:443" =
      .error "relative URL without a base" ∧
    TcpPinger.normalize_address "http://host:1/path" =
      .error "Address should not contain a scheme: http://host:1/path" ∧
    TcpPinger.normalize_address "host:1?x=1" =
      .error "Address must contain a valid host: host:1?x=1" ∧
    TcpPinger.normalize_address "user:pass@host:1" =
      .error "Address must contain a valid host: user:pass@host:1" := by
  refine ⟨?_, by decide, by decide, by decide, by decide, by decide⟩
  intro address
  unfold TcpPinger.normalize_address
  rcases hp : urlParse address with e | u
  · rfl
  · have hs := urlParse_scheme_ne_empty address u hp
    dsimp only
    split_ifs with h1 h2 <;> rfl

/-- Attempts that always complete with the Failure outcome above. -/
def constFailAttempt : Nat → Except String PingResponse :=
  fun _ => Except.ok refusedResponse

/-- C3 amended, witnessed at a concrete tick: three retries against
attempts that always complete with a Failure outcome. -/
theorem tick_retry_loop_spec_witness :
    (runTick 3 constFailAttempt).2 ≤ 3 ∧
    (((runTick 3 constFailAttempt).1 = [] ∧
        (runTick 3 constFailAttempt).2 = 3 ∧
        ∀ j, j < 3 → exceptIsOk (constFailAttempt j) = false) ∨
      (∃ r, (runTick 3 constFailAttempt).1 = [r] ∧
        1 ≤ (runTick 3 constFailAttempt).2 ∧
        constFailAttempt ((runTick 3 constFailAttempt).2 - 1) = .ok r ∧
        ∀ j, j + 1 < (runTick 3 constFailAttempt).2 →
          exceptIsOk (constFailAttempt j) = false)) :=
  tick_retry_loop_spec 3 constFailAttempt
